import Mathlib

/-!
Verification development for the figma-desktop-cli repository: a shallow
embedding of the capability-discovery and command-dispatch layer
(src/cli/wrapper.ts, src/commands/runner.ts, src/config/constants.ts)
together with theorems settling the specification's claims.

JavaScript JSON values are modelled by the `Json` inductive; numbers keep
their validated lexeme, which is enough to decide parse success and object
shape, the only facts the dispatch layer inspects.
-/

/-- Model of a JavaScript JSON value (result of `JSON.parse`). Numbers are
kept as their validated source lexeme. -/
inductive Json where
  | null : Json
  | bool : Bool → Json
  | num : String → Json
  | str : String → Json
  | arr : List Json → Json
  | obj : List (String × Json) → Json
deriving Repr

/-- JSON whitespace per the JSON grammar (space, tab, line feed, carriage return). -/
def jsonWs (c : Char) : Bool :=
  c = ' ' || c = '\t' || c = '\n' || c = '\r'

/-- Drop leading JSON whitespace. -/
def skipJsonWs : List Char → List Char
  | [] => []
  | c :: cs => if jsonWs c then skipJsonWs cs else c :: cs

def isHexDigitChar (c : Char) : Bool :=
  c.isDigit || ('a' ≤ c && c ≤ 'f') || ('A' ≤ c && c ≤ 'F')

def hexVal (c : Char) : Nat :=
  if c.isDigit then c.toNat - 48
  else if 'a' ≤ c then c.toNat - 87
  else c.toNat - 55

/-- Parse the body of a JSON string literal (after the opening quote),
decoding escapes; returns the decoded characters and the rest of the
input after the closing quote. Fuel-indexed; `none` on malformed input. -/
def parseStringBody : Nat → List Char → Option (List Char × List Char)
  | 0, _ => none
  | _ + 1, [] => none
  | f + 1, c :: cs =>
    if c = Char.ofNat 34 then
      some ([], cs)
    else if c = Char.ofNat 92 then
      match cs with
      | [] => none
      | e :: cs2 =>
        let dec : Option (Char × List Char) :=
          if e = Char.ofNat 34 then some (Char.ofNat 34, cs2)
          else if e = Char.ofNat 92 then some (Char.ofNat 92, cs2)
          else if e = '/' then some ('/', cs2)
          else if e = 'b' then some (Char.ofNat 8, cs2)
          else if e = 'f' then some (Char.ofNat 12, cs2)
          else if e = 'n' then some ('\n', cs2)
          else if e = 'r' then some ('\r', cs2)
          else if e = 't' then some ('\t', cs2)
          else if e = 'u' then
            match cs2 with
            | h1 :: h2 :: h3 :: h4 :: cs3 =>
              if isHexDigitChar h1 && isHexDigitChar h2 && isHexDigitChar h3 && isHexDigitChar h4 then
                some (Char.ofNat (((hexVal h1 * 16 + hexVal h2) * 16 + hexVal h3) * 16 + hexVal h4), cs3)
              else none
            | _ => none
          else none
        match dec with
        | none => none
        | some (ch, rest) =>
          match parseStringBody f rest with
          | none => none
          | some (out, rest2) => some (ch :: out, rest2)
    else if c.toNat < 32 then none
    else
      match parseStringBody f cs with
      | none => none
      | some (out, rest) => some (c :: out, rest)

/-- Take the longest prefix of decimal digits. -/
def takeDigits : List Char → List Char × List Char
  | [] => ([], [])
  | c :: cs =>
    if c.isDigit then
      let (ds, rest) := takeDigits cs
      (c :: ds, rest)
    else ([], c :: cs)

/-- Optional fraction part of a JSON number. -/
def parseFracPart (acc : List Char) (cs : List Char) : Option (List Char × List Char) :=
  match cs with
  | c :: rest =>
    if c = '.' then
      match takeDigits rest with
      | ([], _) => none
      | (ds, rest2) => some (acc ++ c :: ds, rest2)
    else some (acc, cs)
  | [] => some (acc, [])

/-- Optional exponent part of a JSON number. -/
def parseExpPart (acc : List Char) (cs : List Char) : Option (List Char × List Char) :=
  match cs with
  | c :: rest =>
    if c = 'e' || c = 'E' then
      let (sgn, rest2) :=
        match rest with
        | s :: r2 => if s = '+' || s = '-' then ([s], r2) else (([] : List Char), rest)
        | [] => ([], [])
      match takeDigits rest2 with
      | ([], _) => none
      | (ds, rest3) => some (acc ++ c :: sgn ++ ds, rest3)
    else some (acc, cs)
  | [] => some (acc, [])

/-- Parse a JSON number lexeme per the strict JSON grammar
(`-? (0 | [1-9][0-9]*) frac? exp?`). -/
def parseNumberLex (cs : List Char) : Option (List Char × List Char) :=
  let (sgn, cs1) :=
    match cs with
    | c :: rest => if c = '-' then ([c], rest) else (([] : List Char), cs)
    | [] => ([], [])
  match cs1 with
  | [] => none
  | d :: rest =>
    if d = '0' then
      match parseFracPart (sgn ++ [d]) rest with
      | none => none
      | some (acc2, rest2) => parseExpPart acc2 rest2
    else if d.isDigit then
      let (ds, rest2) := takeDigits rest
      match parseFracPart (sgn ++ d :: ds) rest2 with
      | none => none
      | some (acc2, rest3) => parseExpPart acc2 rest3
    else none

/-- Match a literal character sequence. -/
def expectLit : List Char → List Char → Option (List Char)
  | [], rest => some rest
  | _ :: _, [] => none
  | l :: ls, c :: rest => if c = l then expectLit ls rest else none

mutual

/-- Fuel-indexed recursive-descent parser for one JSON value; input is
expected to start at a non-whitespace character. -/
def parseValue : Nat → List Char → Option (Json × List Char)
  | 0, _ => none
  | _ + 1, [] => none
  | f + 1, c :: cs =>
    if c = Char.ofNat 123 then parseObjectRest f (skipJsonWs cs)
    else if c = '[' then parseArrayRest f (skipJsonWs cs)
    else if c = Char.ofNat 34 then
      match parseStringBody (cs.length + 1) cs with
      | some (out, rest) => some (Json.str (String.mk out), rest)
      | none => none
    else if c = 't' then
      match expectLit ['r', 'u', 'e'] cs with
      | some rest => some (Json.bool true, rest)
      | none => none
    else if c = 'f' then
      match expectLit ['a', 'l', 's', 'e'] cs with
      | some rest => some (Json.bool false, rest)
      | none => none
    else if c = 'n' then
      match expectLit ['u', 'l', 'l'] cs with
      | some rest => some (Json.null, rest)
      | none => none
    else if c = '-' || c.isDigit then
      match parseNumberLex (c :: cs) with
      | some (lex, rest) => some (Json.num (String.mk lex), rest)
      | none => none
    else none

/-- Continue after an opening brace (whitespace already skipped). -/
def parseObjectRest : Nat → List Char → Option (Json × List Char)
  | 0, _ => none
  | f + 1, cs =>
    match cs with
    | [] => none
    | c :: rest =>
      if c = Char.ofNat 125 then some (Json.obj [], rest)
      else parseMembers f cs []

/-- Parse one or more `"key": value` members separated by commas. -/
def parseMembers : Nat → List Char → List (String × Json) → Option (Json × List Char)
  | 0, _, _ => none
  | f + 1, cs, acc =>
    match cs with
    | [] => none
    | c :: rest =>
      if c = Char.ofNat 34 then
        match parseStringBody (rest.length + 1) rest with
        | none => none
        | some (kout, rest2) =>
          match skipJsonWs rest2 with
          | [] => none
          | colon :: rest4 =>
            if colon = ':' then
              match parseValue f (skipJsonWs rest4) with
              | none => none
              | some (v, rest5) =>
                match skipJsonWs rest5 with
                | [] => none
                | sep :: rest7 =>
                  if sep = ',' then
                    parseMembers f (skipJsonWs rest7) (acc ++ [(String.mk kout, v)])
                  else if sep = Char.ofNat 125 then
                    some (Json.obj (acc ++ [(String.mk kout, v)]), rest7)
                  else none
            else none
      else none

/-- Continue after an opening bracket (whitespace already skipped). -/
def parseArrayRest : Nat → List Char → Option (Json × List Char)
  | 0, _ => none
  | f + 1, cs =>
    match cs with
    | [] => none
    | c :: rest =>
      if c = ']' then some (Json.arr [], rest)
      else parseElements f cs []

/-- Parse one or more array elements separated by commas. -/
def parseElements : Nat → List Char → List Json → Option (Json × List Char)
  | 0, _, _ => none
  | f + 1, cs, acc =>
    match parseValue f cs with
    | none => none
    | some (v, rest) =>
      match skipJsonWs rest with
      | [] => none
      | sep :: rest3 =>
        if sep = ',' then parseElements f (skipJsonWs rest3) (acc ++ [v])
        else if sep = ']' then some (Json.arr (acc ++ [v]), rest3)
        else none

end

/-- Model of JavaScript `JSON.parse`: `some` on well-formed JSON text,
`none` where the real function throws a SyntaxError. The fuel bound
exceeds the maximal recursion depth reachable on the input. -/
def JSONParse (s : String) : Option Json :=
  match parseValue (s.length * 2 + 8) (skipJsonWs s.toList) with
  | some (v, rest) => if skipJsonWs rest = [] then some v else none
  | none => none

example : JSONParse "\x7b\x7d" = some (Json.obj []) := by rfl
example : JSONParse "not json" = none := by rfl
example : JSONParse "42" = some (Json.num "42") := by rfl
example : JSONParse "\x7b\"pageId\":\"123:456\"\x7d" =
    some (Json.obj [("pageId", Json.str "123:456")]) := by rfl

def hexDigitChar (n : Nat) : Char :=
  if n < 10 then Char.ofNat (48 + n) else Char.ofNat (87 + n)

/-- Escape one character the way `JSON.stringify` escapes string contents. -/
def escJsonChar (c : Char) : List Char :=
  if c = Char.ofNat 34 then [Char.ofNat 92, Char.ofNat 34]
  else if c = Char.ofNat 92 then [Char.ofNat 92, Char.ofNat 92]
  else if c = Char.ofNat 8 then [Char.ofNat 92, 'b']
  else if c = Char.ofNat 9 then [Char.ofNat 92, 't']
  else if c = Char.ofNat 10 then [Char.ofNat 92, 'n']
  else if c = Char.ofNat 12 then [Char.ofNat 92, 'f']
  else if c = Char.ofNat 13 then [Char.ofNat 92, 'r']
  else if c.toNat < 32 then
    [Char.ofNat 92, 'u', '0', '0', hexDigitChar (c.toNat / 16), hexDigitChar (c.toNat % 16)]
  else [c]

/-- Quote and escape a string as a JSON string literal. -/
def quoteJson (s : String) : String :=
  String.mk (Char.ofNat 34 :: s.toList.foldr (fun c acc => escJsonChar c ++ acc) [Char.ofNat 34])

mutual

/-- Model of `JSON.stringify(v)` (no indentation argument). -/
def JSONStringify : Json → String
  | Json.null => "null"
  | Json.bool b => if b then "true" else "false"
  | Json.num lex => lex
  | Json.str s => quoteJson s
  | Json.arr xs => "[" ++ stringifyElems xs ++ "]"
  | Json.obj kvs => "\x7b" ++ stringifyMems kvs ++ "\x7d"

def stringifyElems : List Json → String
  | [] => ""
  | [x] => JSONStringify x
  | x :: y :: rest => JSONStringify x ++ "," ++ stringifyElems (y :: rest)

def stringifyMems : List (String × Json) → String
  | [] => ""
  | [(k, v)] => quoteJson k ++ ":" ++ JSONStringify v
  | (k, v) :: m :: rest => quoteJson k ++ ":" ++ JSONStringify v ++ "," ++ stringifyMems (m :: rest)

end

def jsonIndent (d : Nat) : String := String.mk (List.replicate (2 * d) ' ')

mutual

/-- Model of `JSON.stringify(v, null, 2)` at nesting depth `d`. -/
def stringifyPretty : Nat → Json → String
  | _, Json.null => "null"
  | _, Json.bool b => if b then "true" else "false"
  | _, Json.num lex => lex
  | _, Json.str s => quoteJson s
  | _, Json.arr [] => "[]"
  | d, Json.arr (x :: xs) => "[\n" ++ prettyElems d (x :: xs) ++ "\n" ++ jsonIndent d ++ "]"
  | _, Json.obj [] => "\x7b\x7d"
  | d, Json.obj (kv :: kvs) =>
    "\x7b\n" ++ prettyMems d (kv :: kvs) ++ "\n" ++ jsonIndent d ++ "\x7d"

def prettyElems : Nat → List Json → String
  | _, [] => ""
  | d, [x] => jsonIndent (d + 1) ++ stringifyPretty (d + 1) x
  | d, x :: y :: rest =>
    jsonIndent (d + 1) ++ stringifyPretty (d + 1) x ++ ",\n" ++ prettyElems d (y :: rest)

def prettyMems : Nat → List (String × Json) → String
  | _, [] => ""
  | d, [(k, v)] => jsonIndent (d + 1) ++ quoteJson k ++ ": " ++ stringifyPretty (d + 1) v
  | d, (k, v) :: m :: rest =>
    jsonIndent (d + 1) ++ quoteJson k ++ ": " ++ stringifyPretty (d + 1) v ++ ",\n" ++
      prettyMems d (m :: rest)

end

/-- Model of `JSON.stringify(result, null, 2)` as used when printing results. -/
def JSONStringifyPretty (j : Json) : String := stringifyPretty 0 j

/-- JavaScript string truthiness composed with a default: models
`value || fallback` for an optional string field (`null`, `undefined` and
the empty string are all falsy). -/
def jsOrString (o : Option String) (d : String) : String :=
  match o with
  | some s => if s = "" then d else s
  | none => d

/-- Models `[a, b, ...].filter(Boolean).join(' ')`: absent and empty
strings are dropped, the rest joined by single spaces. -/
def jsJoinFiltered (xs : List (Option String)) : String :=
  String.intercalate " " ((xs.filterMap id).filter (fun s => s ≠ ""))

/-- ASCII whitespace removed by JavaScript String.prototype.trim. -/
def jsWsChar (c : Char) : Bool :=
  c = ' ' || c = '\t' || c = '\n' || c = '\r' || c = Char.ofNat 11 || c = Char.ofNat 12

/-- Drop leading JS whitespace characters. -/
def dropWsLeft : List Char → List Char
  | [] => []
  | c :: cs => if jsWsChar c then dropWsLeft cs else c :: cs

/-- Model of JavaScript String.prototype.trim (over ASCII whitespace,
the only whitespace relevant to this development). -/
def jsTrim (s : String) : String :=
  String.mk ((dropWsLeft ((dropWsLeft s.toList).reverse)).reverse)

/-- Split a character list at every single space, keeping empty pieces,
as JavaScript String.prototype.split(' ') does. -/
def splitOnSpaceChars : List Char → List (List Char)
  | [] => [[]]
  | c :: cs =>
    if c = ' ' then [] :: splitOnSpaceChars cs
    else
      match splitOnSpaceChars cs with
      | w :: ws => (c :: w) :: ws
      | [] => [[c]]

/-- Model of JavaScript String.prototype.split(' '). -/
def jsSplitOnSpace (s : String) : List String :=
  (splitOnSpaceChars s.toList).map String.mk

/-- One property of a tool's declared input schema (src/cli/wrapper.ts
lines 81-84): an optional type tag and an optional description. -/
structure PropSchema where
  type : Option String
  description : Option String
deriving Repr

/-- A tool's declared input shape: an ordered `properties` map (absent
when the object has no `properties` key) and an optional `required`
name list. -/
structure InputSchema where
  properties : Option (List (String × PropSchema))
  required : Option (List String)
deriving Repr

/-- One capability returned by the provider's list-capabilities call:
`\x7bname, description?, inputSchema?\x7d`. -/
structure Tool where
  name : String
  description : Option String
  inputSchema : Option InputSchema
deriving Repr

/-- The registry state: the three process-wide arrays `COMMANDS`,
`COMMANDS_INFO` and `COMMANDS_DETAIL` of src/config/constants.ts. -/
structure Registry where
  commands : List String
  commandsInfo : List String
  commandsDetail : List String
deriving Repr, DecidableEq

/-- The registry at process start: all three arrays empty. -/
def Registry.empty : Registry := ⟨[], [], []⟩

/-- Model of the connected MCP client: the outcome of its `listTools`
call and the behaviour of `callTool` as a function of the request. -/
structure Client where
  listToolsResult : Except String (List Tool)
  callTool : String → Json → Except String Json

/-- The synthesized example argument object of wrapper.ts line 98:
every property key mapped to the placeholder string `<key>`, rendered
with `JSON.stringify`. -/
def exampleObjectText (props : List (String × PropSchema)) : String :=
  JSONStringify (Json.obj (props.map (fun kv => (kv.1, Json.str ("<" ++ kv.1 ++ ">")))))

/-- Rendered detail help for one tool: the `detail` string built in
wrapper.discoverTools (src/cli/wrapper.ts lines 78-100), comprising the
`Parameters:` section and the `Example:` line. -/
def renderDetail (tool : Tool) : String :=
  let base := "\nParameters:\n"
  let paramSection :=
    match tool.inputSchema with
    | some schema =>
      match schema.properties with
      | some props =>
        props.foldl (fun acc kv =>
          let isRequired := (schema.required.getD []).contains kv.1
          let ty := jsOrString kv.2.type "any"
          let desc := jsOrString kv.2.description ""
          acc ++ "- " ++ kv.1 ++ " " ++ (if isRequired then "(required)" else "(optional)") ++
            ": " ++ ty ++ " - " ++ desc ++ "\n") base
      | none => base ++ "No parameters required\n"
    | none => base ++ "No parameters required\n"
  let exampleArg :=
    match tool.inputSchema with
    | some schema =>
      match schema.properties with
      | some props => exampleObjectText props
      | none => "\x7b\x7d"
    | none => "\x7b\x7d"
  paramSection ++ "\nExample:\n" ++ tool.name ++ " " ++ exampleArg ++ "\n"

/-- The population loop of wrapper.discoverTools (lines 74-101): starting
from the cleared arrays, push name, description (with placeholder default)
and rendered detail for each discovered tool in order. -/
def discoverLoop (tools : List Tool) : Registry :=
  tools.foldl (fun r t =>
    { commands := r.commands ++ [t.name],
      commandsInfo := r.commandsInfo ++ [jsOrString t.description "No description available"],
      commandsDetail := r.commandsDetail ++ [renderDetail t] })
    Registry.empty

/-- Model of wrapper.discoverTools (src/cli/wrapper.ts lines 62-107):
given the held client (if any) and the current registry, returns the new
registry and the console output. With no client it returns immediately;
on a successful listTools the arrays are cleared and repopulated and a
discovery banner is logged; on a listTools failure the arrays are left
untouched and a warning is printed (the error is swallowed). -/
def wrapper.discoverTools (client : Option Client) (reg : Registry) :
    Registry × List String :=
  match client with
  | none => (reg, [])
  | some c =>
    match c.listToolsResult with
    | Except.ok tools =>
      (discoverLoop tools,
       ["\nDiscovered " ++ toString tools.length ++ " tools from Figma MCP server"])
    | Except.error e =>
      (reg, ["Warning: Could not discover tools from server: " ++ e])

/-- The argument-parsing expression shared by both dispatch paths
(wrapper.ts line 174, runner.ts line 33):
`arg && arg.trim() !== '' ? JSON.parse(arg) : \x7b\x7d`.
A thrown SyntaxError is modelled as `Except.error` carrying a message
that is a function of the input (the exact V8 text is
environment-defined). -/
def parseArg (arg : Option String) : Except String Json :=
  match arg with
  | none => Except.ok (Json.obj [])
  | some s =>
    if s = "" then Except.ok (Json.obj [])
    else if jsTrim s = "" then Except.ok (Json.obj [])
    else
      match JSONParse s with
      | some j => Except.ok j
      | none => Except.error ("Unexpected token in JSON input: " ++ s)

/-- Observable outcome of one interactive dispatch: console output lines,
the provider invocations performed, and whether the loop re-prompted. -/
structure WrapperStep where
  output : List String
  calls : List (String × Json)
  prompted : Bool
deriving Repr

/-- Model of wrapper.runCommand (src/cli/wrapper.ts lines 164-191). With
no client held it prints a notice and re-prompts; otherwise it logs the
command line, parses the argument, calls the provider and prints the
pretty result or the error message. Every path ends by re-prompting. -/
def wrapper.runCommand (client : Option Client) (command : String) (arg : Option String) :
    WrapperStep :=
  match client with
  | none => ⟨["MCP server not available!"], [], true⟩
  | some c =>
    let logLine := jsJoinFiltered [some command, arg]
    match parseArg arg with
    | Except.error e => ⟨[logLine, "Error running command: " ++ e], [], true⟩
    | Except.ok argObj =>
      match c.callTool command argObj with
      | Except.ok result =>
        ⟨[logLine, JSONStringifyPretty result], [(command, argObj)], true⟩
      | Except.error msg =>
        ⟨[logLine, "Error running command: " ++ msg], [(command, argObj)], true⟩

/-- Modelled from the spec: src/commands/helpers.ts is not under src/
(only its unit tests are); `getCurrentVersion` reads the package version
string, shown in the README banner as `0.1.0`. -/
def getCurrentVersion : String := "0.1.0"

/-- Modelled from the spec: src/commands/helpers.ts is not under src/.
`printAvailableCommands` prints an `Available commands` header followed
by the discovered command list with 1-based numbering and descriptions
(spec section 4.4 and its unit tests). -/
def printAvailableCommands (reg : Registry) : List String :=
  "\nAvailable commands:" ::
    (List.range reg.commands.length).map (fun i =>
      toString (i + 1) ++ ". " ++ reg.commands.getD i "" ++ " - " ++ reg.commandsInfo.getD i "")

/-- First index of a command name in the registry's name list. -/
def findCommandIdx (l : List String) (name : String) : Option Nat :=
  match l with
  | [] => none
  | c :: rest => if c = name then some 0 else (findCommandIdx rest name).map (· + 1)

/-- Modelled from the spec: src/commands/helpers.ts is not under src/.
`printCommandDetail` trims the requested name; an empty name asks for a
command name and lists the available commands; a known name prints its
registry entry; an unknown name prints an `Unknown command` notice plus
the full available-commands listing (spec section 4.3 and its unit
tests). -/
def printCommandDetail (reg : Registry) (name : String) : List String :=
  let trimmed := jsTrim name
  if trimmed = "" then
    "Please provide a command name" :: printAvailableCommands reg
  else
    match findCommandIdx reg.commands trimmed with
    | some i =>
      [trimmed, reg.commandsInfo.getD i "", reg.commandsDetail.getD i ""]
    | none =>
      ("Unknown command: " ++ trimmed) :: printAvailableCommands reg

/-- Model of wrapper.printHelp (src/cli/wrapper.ts lines 196-219): one
console.log call producing the usage banner with the command list or a
placeholder. -/
def wrapper.printHelp (reg : Registry) : String :=
  let commandList :=
    if reg.commands.length > 0 then String.intercalate ", " reg.commands
    else "No commands available (not connected)"
  "\nFigma Desktop MCP CLI v" ++ getCurrentVersion ++
    "\n\nUsage:\n\ncommands         list all the available commands\n" ++
    "<command> -h     quick help on <command>\n" ++
    "<command> <arg>  run <command> with argument\n" ++
    "clear            clear the screen\nexit, quit, q    exit the CLI\n\nAll commands:\n\n" ++
    commandList ++
    "\n\nNote: Make sure Figma Desktop app is running with MCP server enabled in Dev Mode.\n" ++
    "Select a frame/layer in Figma before using commands that require selections.\n\n"

/-- The tokenization of a non-control input line (src/cli/wrapper.ts
lines 145-148): split the trimmed line on single spaces; the first part
is the command name and `args[0]` — the second part, when present — is
the argument handed on. Later parts are not used. -/
def parseInvocation (trimmed : String) : String × Option String :=
  let parts := jsSplitOnSpace trimmed
  (parts.headD "", parts.tail.head?)

/-- What the interactive loop does after handling one line: re-prompt, or
close the readline interface (the exit path, whose close handler ends the
process with status 0). -/
inductive LoopAction where
  | reprompt : LoopAction
  | closeSession : LoopAction
deriving Repr, DecidableEq

/-- Observable outcome of wrapper.handleCommand on one input line. -/
structure Handled where
  output : List String
  calls : List (String × Json)
  action : LoopAction
deriving Repr

/-- Model of wrapper.handleCommand (src/cli/wrapper.ts lines 113-157):
trim the line; empty input re-prompts; the control tokens exit/quit/q,
help/?, commands and clear short-circuit dispatch; otherwise the line is
split and either detail help is printed (second token `-h`) or the
command is run with the second token as its argument. -/
def wrapper.handleCommand (reg : Registry) (client : Option Client) (input : String) :
    Handled :=
  let trimmed := jsTrim input
  if trimmed = "" then ⟨[], [], LoopAction.reprompt⟩
  else if trimmed = "exit" ∨ trimmed = "quit" ∨ trimmed = "q" then
    ⟨[], [], LoopAction.closeSession⟩
  else if trimmed = "help" ∨ trimmed = "?" then
    ⟨[wrapper.printHelp reg], [], LoopAction.reprompt⟩
  else if trimmed = "commands" then
    ⟨printAvailableCommands reg, [], LoopAction.reprompt⟩
  else if trimmed = "clear" then
    ⟨[], [], LoopAction.reprompt⟩
  else
    let p := parseInvocation trimmed
    if p.2 = some "-h" then
      ⟨printCommandDetail reg p.1, [], LoopAction.reprompt⟩
    else
      let step := wrapper.runCommand client p.1 p.2
      ⟨step.output, step.calls, LoopAction.reprompt⟩

/-- The three fixed remediation checklist lines printed with connect and
one-shot failures (wrapper.ts lines 51-54, runner.ts lines 51-54). -/
def remediationChecklist : List String :=
  ["\nMake sure:",
   "1. Figma Desktop app is running",
   "2. You have enabled \"Desktop MCP server\" in Dev Mode",
   "3. The server is running at http://127.0.0.1:3845/mcp"]

/-- Model of wrapper.connect (src/cli/wrapper.ts lines 27-57): a failed
transport connect prints the failure plus the remediation checklist and
exits with status 1; a successful connect stores the client, runs
discovery (whose own failures are swallowed, line 104-106) and prints
the help banner. Returns the new registry, the held client, the console
output and the exit status if the process terminated. -/
def wrapper.connect (conn : Except String Client) (reg : Registry) :
    Registry × Option Client × List String × Option Nat :=
  match conn with
  | Except.error e =>
    (reg, none,
     ("Failed to connect to Figma Desktop MCP server: " ++ e) :: remediationChecklist,
     some 1)
  | Except.ok c =>
    let (reg2, discoverOut) := wrapper.discoverTools (some c) reg
    (reg2, some c, discoverOut ++ [wrapper.printHelp reg2], none)

/-- External outcomes the one-shot runner depends on: the transport
connect, the provider's callTool behaviour and the client close. -/
structure OneShotEnv where
  connectResult : Except String Unit
  callTool : String → Json → Except String Json
  closeResult : Except String Unit

/-- Observable outcome of one one-shot run: console output lines, the
provider invocations performed and the process exit status. -/
structure OneShotResult where
  output : List String
  calls : List (String × Json)
  exitCode : Nat
deriving Repr

/-- Model of runCommand in src/commands/runner.ts (lines 13-57): log the
echoed command line, connect, parse the argument, invoke the provider,
print the pretty result, close and exit 0; any thrown failure is caught
once, reported as `Error running command:` plus the remediation
checklist, and exits 1. -/
def runner.runCommand (env : OneShotEnv) (command : String) (arg : Option String)
    (flag : Option String) : OneShotResult :=
  let logLine := jsJoinFiltered [some command, arg, flag]
  match env.connectResult with
  | Except.error e =>
    ⟨[logLine, "Error running command: " ++ e] ++ remediationChecklist, [], 1⟩
  | Except.ok _ =>
    match parseArg arg with
    | Except.error e =>
      ⟨[logLine, "Error running command: " ++ e] ++ remediationChecklist, [], 1⟩
    | Except.ok argObj =>
      match env.callTool command argObj with
      | Except.error e =>
        ⟨[logLine, "Error running command: " ++ e] ++ remediationChecklist,
         [(command, argObj)], 1⟩
      | Except.ok result =>
        match env.closeResult with
        | Except.error e =>
          ⟨[logLine, JSONStringifyPretty result, "Error running command: " ++ e] ++
            remediationChecklist, [(command, argObj)], 1⟩
        | Except.ok _ =>
          ⟨[logLine, JSONStringifyPretty result], [(command, argObj)], 0⟩

/-! Concrete tools, clients and environments used in witnesses and
counterexamples. -/

/-- A capability with no declared input shape (spec scenario). -/
def toolGetCurrentPage : Tool := ⟨"get_current_page", none, none⟩

/-- The navigate_page capability of the spec scenario: one required
string property `pageId` without a description. -/
def toolNavigatePage : Tool :=
  ⟨"navigate_page", none,
   some ⟨some [("pageId", ⟨some "string", none⟩)], some ["pageId"]⟩⟩

/-- The navigate_page capability as populated by the repository's unit
tests: the `pageId` property carries a description. -/
def toolNavigatePageDescribed : Tool :=
  ⟨"navigate_page", some "Navigates to a specific page",
   some ⟨some [("pageId", ⟨some "string", some "The ID of the page to navigate to"⟩)],
         some ["pageId"]⟩⟩

/-- A client whose discovery succeeds with no tools and whose provider
accepts every call. -/
def clientOkNull : Client := ⟨Except.ok [], fun _ _ => Except.ok Json.null⟩

/-- A client whose provider fails every invocation. -/
def clientExecFail : Client := ⟨Except.ok [], fun _ _ => Except.error "Tool execution failed"⟩

/-- A client whose discovery succeeds with the two spec-scenario tools. -/
def clientOkTwo : Client :=
  ⟨Except.ok [toolGetCurrentPage, toolNavigatePageDescribed], fun _ _ => Except.ok Json.null⟩

/-- A client whose list-capabilities call fails at the transport. -/
def clientListFail : Client := ⟨Except.error "fetch failed", fun _ _ => Except.ok Json.null⟩

/-- A one-shot environment where connect, invoke and close all succeed. -/
def envOkNull : OneShotEnv := ⟨Except.ok (), fun _ _ => Except.ok Json.null, Except.ok ()⟩

/-- A one-shot environment whose transport connect fails. -/
def envConnFail : OneShotEnv :=
  ⟨Except.error "Connection failed", fun _ _ => Except.ok Json.null, Except.ok ()⟩

/-- A registry holding one stale entry from a previous discovery round. -/
def regPrev : Registry := ⟨["old_cmd"], ["Old description"], ["old detail"]⟩

/-! Helper lemmas about the embedded operations. -/

/-- The discovery population loop, run from any accumulator, appends the
three per-tool projections in order. -/
theorem discoverLoop_foldl (tools : List Tool) (r : Registry) :
    tools.foldl (fun r t =>
      { commands := r.commands ++ [t.name],
        commandsInfo := r.commandsInfo ++ [jsOrString t.description "No description available"],
        commandsDetail := r.commandsDetail ++ [renderDetail t] }) r =
    { commands := r.commands ++ tools.map Tool.name,
      commandsInfo := r.commandsInfo ++
        tools.map (fun t => jsOrString t.description "No description available"),
      commandsDetail := r.commandsDetail ++ tools.map renderDetail } := by
  induction tools generalizing r with
  | nil => simp
  | cons t ts ih => simp [List.foldl, ih]

/-- A successful discovery round yields exactly the three index-aligned
projections of the discovered tool list. -/
theorem discoverLoop_eq (tools : List Tool) :
    discoverLoop tools =
      ⟨tools.map Tool.name,
       tools.map (fun t => jsOrString t.description "No description available"),
       tools.map renderDetail⟩ := by
  simp [discoverLoop, discoverLoop_foldl, Registry.empty]

/-- A name that is not in the list is not found by the index search. -/
theorem findCommandIdx_eq_none (l : List String) (name : String) (h : name ∉ l) :
    findCommandIdx l name = none := by
  induction l with
  | nil => rfl
  | cons a rest ih =>
    simp only [findCommandIdx]
    rw [if_neg, ih]
    · simp
    · exact fun hmem => h (by simp [hmem])
    · intro ha
      exact h (by simp [ha])

/-- With connect succeeded and the argument parsed, the one-shot runner
performs exactly one provider invocation with the parsed object. -/
theorem runner_calls_of_parse_ok (env : OneShotEnv) (command : String)
    (arg flag : Option String) (j : Json)
    (hconn : env.connectResult = Except.ok ()) (hp : parseArg arg = Except.ok j) :
    (runner.runCommand env command arg flag).calls = [(command, j)] := by
  cases hct : env.callTool command j with
  | error e => simp [runner.runCommand, hconn, hp, hct]
  | ok result =>
    cases hcl : env.closeResult <;> simp [runner.runCommand, hconn, hp, hct, hcl]

/-- With a held client and the argument parsed, the interactive dispatch
performs exactly one provider invocation with the parsed object. -/
theorem wrapper_calls_of_parse_ok (c : Client) (command : String)
    (arg : Option String) (j : Json) (hp : parseArg arg = Except.ok j) :
    (wrapper.runCommand (some c) command arg).calls = [(command, j)] := by
  cases hct : c.callTool command j <;> simp [wrapper.runCommand, hp, hct]

/-! Claim theorems. -/

/-- C1 counterexample: the argument string `42` is non-empty,
non-whitespace and is not a parseable JSON object (it parses as a JSON
number), so the claim requires a MalformedArguments failure before any
provider call and one-shot exit status 1; instead the one-shot runner
invokes the provider with the number `42` as the argument and exits 0. -/
theorem C1_counterexample :
    "42" ≠ "" ∧ jsTrim "42" ≠ "" ∧
    JSONParse "42" = some (Json.num "42") ∧
    (∀ kvs, JSONParse "42" ≠ some (Json.obj kvs)) ∧
    (runner.runCommand envOkNull "get_current_page" (some "42") none).calls =
      [("get_current_page", Json.num "42")] ∧
    (runner.runCommand envOkNull "get_current_page" (some "42") none).exitCode = 0 := by
  refine ⟨by decide, by decide, rfl, ?_, rfl, rfl⟩
  intro kvs h
  rw [show JSONParse "42" = some (Json.num "42") from rfl] at h
  exact Json.noConfusion (Option.some_inj.mp h)

/-- C1 (amended): for every argument string that is non-empty,
non-whitespace-only and on which JSON parsing fails (rather than merely
not yielding an object), dispatch fails with the malformed-arguments
error before any provider call is made: the one-shot runner (with a
working connection) performs no provider call and exits 1, and the
interactive dispatcher (with a held client) performs no provider call,
prints the parse error and re-prompts. -/
theorem C1_parse_failure_blocks_invoke (env : OneShotEnv) (c : Client)
    (command arg : String) (flag : Option String)
    (hconn : env.connectResult = Except.ok ())
    (hne : arg ≠ "") (hws : jsTrim arg ≠ "") (hparse : JSONParse arg = none) :
    (runner.runCommand env command (some arg) flag).calls = [] ∧
    (runner.runCommand env command (some arg) flag).exitCode = 1 ∧
    (wrapper.runCommand (some c) command (some arg)).calls = [] ∧
    (wrapper.runCommand (some c) command (some arg)).output =
      [jsJoinFiltered [some command, some arg],
       "Error running command: " ++ ("Unexpected token in JSON input: " ++ arg)] ∧
    (wrapper.runCommand (some c) command (some arg)).prompted = true := by
  have hpa : parseArg (some arg) =
      Except.error ("Unexpected token in JSON input: " ++ arg) := by
    simp [parseArg, hne, hws, hparse]
  refine ⟨?_, ?_, ?_, ?_, ?_⟩ <;>
    simp [runner.runCommand, wrapper.runCommand, hconn, hpa]

/-- C1 witness: the amended theorem applied at the argument string
`not json` with a working one-shot environment and client. -/
theorem C1_parse_failure_blocks_invoke_witness :
    (runner.runCommand envOkNull "get_current_page" (some "not json") none).calls = [] ∧
    (runner.runCommand envOkNull "get_current_page" (some "not json") none).exitCode = 1 ∧
    (wrapper.runCommand (some clientOkNull) "get_current_page" (some "not json")).calls = [] ∧
    (wrapper.runCommand (some clientOkNull) "get_current_page" (some "not json")).output =
      [jsJoinFiltered [some "get_current_page", some "not json"],
       "Error running command: " ++ ("Unexpected token in JSON input: " ++ "not json")] ∧
    (wrapper.runCommand (some clientOkNull) "get_current_page" (some "not json")).prompted =
      true :=
  C1_parse_failure_blocks_invoke envOkNull clientOkNull "get_current_page" "not json" none
    rfl (by decide) (by decide) rfl

/-- C4 counterexample: for the interactive line
`navigate_page \x7b"pageId": "123"\x7d`, whose first token is not a
control token and whose remainder is not `-h`, the dispatcher is handed
only the second space-token `\x7b"pageId":` — not the whole remainder
`\x7b"pageId": "123"\x7d` — so the raw JSON argument is re-split at its
space and the claim fails; the truncated fragment then fails to parse,
so no provider call is made. -/
theorem C4_counterexample :
    parseInvocation "navigate_page \x7b\"pageId\": \"123\"\x7d" =
      ("navigate_page", some "\x7b\"pageId\":") ∧
    some "\x7b\"pageId\":" ≠ some "\x7b\"pageId\": \"123\"\x7d" ∧
    (wrapper.handleCommand Registry.empty (some clientOkNull)
      "navigate_page \x7b\"pageId\": \"123\"\x7d").calls = [] ∧
    (wrapper.handleCommand Registry.empty (some clientOkNull)
      "navigate_page \x7b\"pageId\": \"123\"\x7d").output =
      ["navigate_page \x7b\"pageId\":",
       "Error running command: " ++
         ("Unexpected token in JSON input: " ++ "\x7b\"pageId\":")] := by
  refine ⟨by decide, by decide, by rfl, by rfl⟩

/-- C4 (amended): for every trimmed interactive line whose first token is
not a control token and whose second token is not `-h`, only the second
space-delimited token of the line (possibly absent) is passed as the
argument to the dispatcher's invoke; content after a further space is
dropped rather than passed whole. -/
theorem C4_second_token_passed (reg : Registry) (client : Option Client) (input : String)
    (h0 : (jsTrim input) ≠ "")
    (h1 : ¬((jsTrim input) = "exit" ∨ (jsTrim input) = "quit" ∨ (jsTrim input) = "q"))
    (h2 : ¬((jsTrim input) = "help" ∨ (jsTrim input) = "?"))
    (h3 : (jsTrim input) ≠ "commands") (h4 : (jsTrim input) ≠ "clear")
    (h5 : (parseInvocation (jsTrim input)).2 ≠ some "-h") :
    wrapper.handleCommand reg client input =
      ⟨(wrapper.runCommand client (parseInvocation (jsTrim input)).1
          (parseInvocation (jsTrim input)).2).output,
       (wrapper.runCommand client (parseInvocation (jsTrim input)).1
          (parseInvocation (jsTrim input)).2).calls,
       LoopAction.reprompt⟩ := by
  simp [wrapper.handleCommand, h0, h1, h2, h3, h4, h5]

/-- C4 witness: the amended theorem applied to the concrete line
`navigate_page \x7b"a": 1\x7d`. -/
theorem C4_second_token_passed_witness :
    wrapper.handleCommand Registry.empty (some clientOkNull) "navigate_page \x7b\"a\": 1\x7d" =
      ⟨(wrapper.runCommand (some clientOkNull)
          (parseInvocation (jsTrim "navigate_page \x7b\"a\": 1\x7d")).1
          (parseInvocation (jsTrim "navigate_page \x7b\"a\": 1\x7d")).2).output,
       (wrapper.runCommand (some clientOkNull)
          (parseInvocation (jsTrim "navigate_page \x7b\"a\": 1\x7d")).1
          (parseInvocation (jsTrim "navigate_page \x7b\"a\": 1\x7d")).2).calls,
       LoopAction.reprompt⟩ :=
  C4_second_token_passed Registry.empty (some clientOkNull) "navigate_page \x7b\"a\": 1\x7d"
    (by decide) (by decide) (by decide) (by decide) (by decide) (by decide)

/-- C5: rendered detail help is synthesized deterministically from name
and schema in the exact required layout — for the spec scenario's
navigate_page (required string property pageId) the parameter line is
`- pageId (required): string - ` followed by its description and the
example line is `navigate_page \x7b"pageId":"<pageId>"\x7d`, while a
capability with no input shape renders `Parameters:` /
`No parameters required` and the example `<name> \x7b\x7d`; the scenario
registry holds 2 entries. -/
theorem C5_rendered_help_layout :
    renderDetail toolGetCurrentPage =
      "\nParameters:\nNo parameters required\n\nExample:\nget_current_page \x7b\x7d\n" ∧
    renderDetail toolNavigatePage =
      "\nParameters:\n- pageId (required): string - \n\nExample:\nnavigate_page \x7b\"pageId\":\"<pageId>\"\x7d\n" ∧
    renderDetail toolNavigatePageDescribed =
      "\nParameters:\n- pageId (required): string - The ID of the page to navigate to\n\nExample:\nnavigate_page \x7b\"pageId\":\"<pageId>\"\x7d\n" ∧
    (discoverLoop [toolGetCurrentPage, toolNavigatePage]).commands.length = 2 := by
  refine ⟨by rfl, by rfl, by rfl, by rfl⟩

/-- C10: in interactive mode, an invocation attempted while no provider
client is held prints the `MCP server not available!` notice and
re-prompts, performing no provider call and no parse — the outcome is the
same for every command name and every argument string, malformed ones
included, and the process does not terminate. -/
theorem C10_no_client_notice (command : String) (arg : Option String) :
    wrapper.runCommand none command arg =
      ⟨["MCP server not available!"], [], true⟩ := rfl

/-- C2: every discovery round either replaces all three registry views
wholesale or leaves them untouched — a successful list-capabilities
response rebuilds the views purely from the returned tools (zero
capabilities yield the empty registry, never a partial one), while a
transport failure leaves the registry exactly as held before, surfaces a
warning, and (seen through wrapper.connect) keeps the session's client
with no process exit. -/
theorem C2_discovery_wholesale_or_untouched (c : Client) (reg : Registry) :
    (∀ tools, c.listToolsResult = Except.ok tools →
      wrapper.discoverTools (some c) reg =
        (⟨tools.map Tool.name,
          tools.map (fun t => jsOrString t.description "No description available"),
          tools.map renderDetail⟩,
         ["\nDiscovered " ++ toString tools.length ++ " tools from Figma MCP server"]) ∧
      (tools = [] → (wrapper.discoverTools (some c) reg).1 = Registry.empty)) ∧
    (∀ e, c.listToolsResult = Except.error e →
      wrapper.discoverTools (some c) reg =
        (reg, ["Warning: Could not discover tools from server: " ++ e]) ∧
      wrapper.connect (Except.ok c) reg =
        (reg, some c,
         ["Warning: Could not discover tools from server: " ++ e, wrapper.printHelp reg],
         none)) := by
  constructor
  · intro tools h
    constructor
    · simp [wrapper.discoverTools, h, discoverLoop_eq]
    · intro htools
      subst htools
      simp [wrapper.discoverTools, h, discoverLoop_eq, Registry.empty]
  · intro e h
    constructor
    · simp [wrapper.discoverTools, h]
    · simp [wrapper.connect, wrapper.discoverTools, h]

/-- C2 witness: the theorem applied to a failing-discovery client over a
previously populated registry and to a zero-capability client over the
same registry. -/
theorem C2_discovery_wholesale_or_untouched_witness :
    wrapper.discoverTools (some clientListFail) regPrev =
      (regPrev, ["Warning: Could not discover tools from server: " ++ "fetch failed"]) ∧
    (wrapper.discoverTools (some clientOkNull) regPrev).1 = Registry.empty :=
  ⟨((C2_discovery_wholesale_or_untouched clientListFail regPrev).2 "fetch failed" rfl).1,
   ((C2_discovery_wholesale_or_untouched clientOkNull regPrev).1 [] rfl).2 rfl⟩

/-- C3: for every command name, invoking it with a null, empty or
whitespace-only argument is equivalent to invoking it with the string
`\x7b\x7d`: all four parse to the empty argument object, and both the
one-shot runner (with a working connection) and the interactive
dispatcher (with a held client) call the provider exactly once with the
empty object in each of the four cases. -/
theorem C3_empty_arg_equivalence (command : String) (env : OneShotEnv)
    (flag : Option String) (c : Client) (h : env.connectResult = Except.ok ()) :
    (parseArg none = Except.ok (Json.obj []) ∧
     parseArg (some "") = Except.ok (Json.obj []) ∧
     parseArg (some "   ") = Except.ok (Json.obj []) ∧
     parseArg (some "\x7b\x7d") = Except.ok (Json.obj [])) ∧
    ((runner.runCommand env command none flag).calls = [(command, Json.obj [])] ∧
     (runner.runCommand env command (some "") flag).calls = [(command, Json.obj [])] ∧
     (runner.runCommand env command (some "   ") flag).calls = [(command, Json.obj [])] ∧
     (runner.runCommand env command (some "\x7b\x7d") flag).calls =
       [(command, Json.obj [])]) ∧
    ((wrapper.runCommand (some c) command none).calls = [(command, Json.obj [])] ∧
     (wrapper.runCommand (some c) command (some "")).calls = [(command, Json.obj [])] ∧
     (wrapper.runCommand (some c) command (some "   ")).calls = [(command, Json.obj [])] ∧
     (wrapper.runCommand (some c) command (some "\x7b\x7d")).calls =
       [(command, Json.obj [])]) := by
  refine ⟨⟨rfl, rfl, by rfl, by rfl⟩, ⟨?_, ?_, ?_, ?_⟩, ⟨?_, ?_, ?_, ?_⟩⟩
  · exact runner_calls_of_parse_ok env command none flag (Json.obj []) h rfl
  · exact runner_calls_of_parse_ok env command (some "") flag (Json.obj []) h rfl
  · exact runner_calls_of_parse_ok env command (some "   ") flag (Json.obj []) h (by rfl)
  · exact runner_calls_of_parse_ok env command (some "\x7b\x7d") flag (Json.obj []) h (by rfl)
  · exact wrapper_calls_of_parse_ok c command none (Json.obj []) rfl
  · exact wrapper_calls_of_parse_ok c command (some "") (Json.obj []) rfl
  · exact wrapper_calls_of_parse_ok c command (some "   ") (Json.obj []) (by rfl)
  · exact wrapper_calls_of_parse_ok c command (some "\x7b\x7d") (Json.obj []) (by rfl)

/-- C3 witness: the theorem applied at the command get_current_page with
a working one-shot environment and client. -/
theorem C3_empty_arg_equivalence_witness :
    (runner.runCommand envOkNull "get_current_page" none none).calls =
      [("get_current_page", Json.obj [])] ∧
    (wrapper.runCommand (some clientOkNull) "get_current_page" (some "   ")).calls =
      [("get_current_page", Json.obj [])] :=
  ⟨(C3_empty_arg_equivalence "get_current_page" envOkNull none clientOkNull rfl).2.1.1,
   (C3_empty_arg_equivalence "get_current_page" envOkNull none clientOkNull rfl).2.2.2.2.1⟩

/-- C6: after every successful discovery round the three registry views
have equal length and, at every index, the name, description and
rendered-help entries are the three projections of the same discovered
capability. -/
theorem C6_registry_alignment (c : Client) (tools : List Tool) (reg0 : Registry) (i : Nat)
    (h : c.listToolsResult = Except.ok tools) :
    ((wrapper.discoverTools (some c) reg0).1.commands.length =
       (wrapper.discoverTools (some c) reg0).1.commandsInfo.length ∧
     (wrapper.discoverTools (some c) reg0).1.commandsInfo.length =
       (wrapper.discoverTools (some c) reg0).1.commandsDetail.length) ∧
    (wrapper.discoverTools (some c) reg0).1.commands[i]? =
      tools[i]?.map Tool.name ∧
    (wrapper.discoverTools (some c) reg0).1.commandsInfo[i]? =
      tools[i]?.map (fun t => jsOrString t.description "No description available") ∧
    (wrapper.discoverTools (some c) reg0).1.commandsDetail[i]? =
      tools[i]?.map renderDetail := by
  simp [wrapper.discoverTools, h, discoverLoop_eq, List.getElem?_map]

/-- C6 witness: the theorem applied to the two-tool spec scenario at
index 0. -/
theorem C6_registry_alignment_witness :
    (wrapper.discoverTools (some clientOkTwo) Registry.empty).1.commands[0]? =
      [toolGetCurrentPage, toolNavigatePageDescribed][0]?.map Tool.name ∧
    (wrapper.discoverTools (some clientOkTwo) Registry.empty).1.commands.length =
      (wrapper.discoverTools (some clientOkTwo) Registry.empty).1.commandsInfo.length :=
  ⟨(C6_registry_alignment clientOkTwo [toolGetCurrentPage, toolNavigatePageDescribed]
      Registry.empty 0 rfl).2.1,
   (C6_registry_alignment clientOkTwo [toolGetCurrentPage, toolNavigatePageDescribed]
      Registry.empty 0 rfl).1.1⟩

/-- C7 counterexample: an interactive invoke failure — the provider
rejects the call after the argument `\x7b\x7d` parsed fine, so this is
not a malformed-argument failure — produces a user-visible message
without the remediation checklist items, contradicting the claim that
every connect/discover/invoke failure in both modes shows the three
checklist items except only malformed-argument failures. -/
theorem C7_counterexample :
    (wrapper.runCommand (some clientExecFail) "navigate_page" (some "\x7b\x7d")).output =
      ["navigate_page \x7b\x7d", "Error running command: Tool execution failed"] ∧
    "1. Figma Desktop app is running" ∉
      (wrapper.runCommand (some clientExecFail) "navigate_page" (some "\x7b\x7d")).output := by
  refine ⟨by rfl, by decide⟩

/-- C7 (amended): the checklist policy as implemented — every one-shot
failure (exit status 1) includes all three checklist items, including
malformed-argument failures, which additionally show the parse error; an
interactive connect failure includes them and exits 1; but interactive
invoke failures, interactive malformed-argument failures and discovery
failures print only the error or warning line, without the checklist. -/
theorem C7_checklist_policy :
    (∀ (env : OneShotEnv) (command : String) (arg flag : Option String),
      (runner.runCommand env command arg flag).exitCode = 1 →
      ∀ item ∈ remediationChecklist,
        item ∈ (runner.runCommand env command arg flag).output) ∧
    (∀ (e : String) (reg : Registry),
      (wrapper.connect (Except.error e) reg).2.2.2 = some 1 ∧
      ∀ item ∈ remediationChecklist,
        item ∈ (wrapper.connect (Except.error e) reg).2.2.1) ∧
    (∀ (c : Client) (command : String) (arg : Option String) (j : Json) (msg : String),
      parseArg arg = Except.ok j → c.callTool command j = Except.error msg →
      (wrapper.runCommand (some c) command arg).output =
        [jsJoinFiltered [some command, arg], "Error running command: " ++ msg]) ∧
    (∀ (c : Client) (command : String) (arg : Option String) (e : String),
      parseArg arg = Except.error e →
      (wrapper.runCommand (some c) command arg).output =
        [jsJoinFiltered [some command, arg], "Error running command: " ++ e]) ∧
    (∀ (c : Client) (reg : Registry) (e : String),
      c.listToolsResult = Except.error e →
      (wrapper.discoverTools (some c) reg).2 =
        ["Warning: Could not discover tools from server: " ++ e]) := by
  refine ⟨?_, ?_, ?_, ?_, ?_⟩
  · intro env command arg flag hexit item hitem
    cases hconn : env.connectResult with
    | error e =>
      have hout : (runner.runCommand env command arg flag).output =
          [jsJoinFiltered [some command, arg, flag], "Error running command: " ++ e] ++
            remediationChecklist := by
        simp [runner.runCommand, hconn]
      rw [hout]
      exact List.mem_append.mpr (Or.inr hitem)
    | ok u =>
      cases hp : parseArg arg with
      | error e =>
        have hout : (runner.runCommand env command arg flag).output =
            [jsJoinFiltered [some command, arg, flag], "Error running command: " ++ e] ++
              remediationChecklist := by
          simp [runner.runCommand, hconn, hp]
        rw [hout]
        exact List.mem_append.mpr (Or.inr hitem)
      | ok j =>
        cases hct : env.callTool command j with
        | error e2 =>
          have hout : (runner.runCommand env command arg flag).output =
              [jsJoinFiltered [some command, arg, flag], "Error running command: " ++ e2] ++
                remediationChecklist := by
            simp [runner.runCommand, hconn, hp, hct]
          rw [hout]
          exact List.mem_append.mpr (Or.inr hitem)
        | ok result =>
          cases hcl : env.closeResult with
          | error e3 =>
            have hout : (runner.runCommand env command arg flag).output =
                [jsJoinFiltered [some command, arg, flag], JSONStringifyPretty result,
                  "Error running command: " ++ e3] ++ remediationChecklist := by
              simp [runner.runCommand, hconn, hp, hct, hcl]
            rw [hout]
            exact List.mem_append.mpr (Or.inr hitem)
          | ok u2 =>
            have h0 : (runner.runCommand env command arg flag).exitCode = 0 := by
              simp [runner.runCommand, hconn, hp, hct, hcl]
            rw [h0] at hexit
            exact absurd hexit (by decide)
  · intro e reg
    constructor
    · rfl
    · intro item hitem
      have hout : (wrapper.connect (Except.error e) reg).2.2.1 =
          ("Failed to connect to Figma Desktop MCP server: " ++ e) ::
            remediationChecklist := rfl
      rw [hout]
      exact List.mem_cons_of_mem _ hitem
  · intro c command arg j msg hp hct
    simp [wrapper.runCommand, hp, hct]
  · intro c command arg e hp
    simp [wrapper.runCommand, hp]
  · intro c reg e h
    simp [wrapper.discoverTools, h]

/-- C7 witness: the amended theorem applied to a failing one-shot
connect, a failing interactive connect, and a provider-rejected
interactive invoke. -/
theorem C7_checklist_policy_witness :
    "1. Figma Desktop app is running" ∈
      (runner.runCommand envConnFail "get_current_page" none none).output ∧
    (wrapper.connect (Except.error "ECONNREFUSED") Registry.empty).2.2.2 = some 1 ∧
    (wrapper.runCommand (some clientExecFail) "navigate_page" (some "\x7b\x7d")).output =
      [jsJoinFiltered [some "navigate_page", some "\x7b\x7d"],
       "Error running command: " ++ "Tool execution failed"] :=
  ⟨C7_checklist_policy.1 envConnFail "get_current_page" none none rfl
     "1. Figma Desktop app is running" (by decide),
   (C7_checklist_policy.2.1 "ECONNREFUSED" Registry.empty).1,
   C7_checklist_policy.2.2.1 clientExecFail "navigate_page" (some "\x7b\x7d") (Json.obj [])
     "Tool execution failed" (by rfl) rfl⟩

/-- C8: a detail-help request (second token `-h`) never invokes the
provider and always re-prompts, and detail help for a name missing from
the registry — the empty registry included — responds with an unknown
command notice plus the full available-commands listing, never an
error that aborts the loop (printCommandDetail and
printAvailableCommands are modelled from the spec and their unit tests,
their source file not being under src/). -/
theorem C8_detail_help_bypass (reg : Registry) (client : Option Client)
    (input name : String)
    (h0 : jsTrim input ≠ "")
    (h1 : ¬(jsTrim input = "exit" ∨ jsTrim input = "quit" ∨ jsTrim input = "q"))
    (h2 : ¬(jsTrim input = "help" ∨ jsTrim input = "?"))
    (h3 : jsTrim input ≠ "commands") (h4 : jsTrim input ≠ "clear")
    (h5 : (parseInvocation (jsTrim input)).2 = some "-h")
    (hname : jsTrim name = name) (hne : name ≠ "") (hunknown : name ∉ reg.commands) :
    wrapper.handleCommand reg client input =
      ⟨printCommandDetail reg (parseInvocation (jsTrim input)).1, [],
       LoopAction.reprompt⟩ ∧
    printCommandDetail reg name =
      ("Unknown command: " ++ name) :: printAvailableCommands reg ∧
    printAvailableCommands reg =
      "\nAvailable commands:" ::
        (List.range reg.commands.length).map (fun i =>
          toString (i + 1) ++ ". " ++ reg.commands.getD i "" ++ " - " ++
            reg.commandsInfo.getD i "") := by
  refine ⟨?_, ?_, rfl⟩
  · simp [wrapper.handleCommand, h0, h1, h2, h3, h4, h5]
  · simp [printCommandDetail, hname, hne, findCommandIdx_eq_none reg.commands name hunknown]

/-- C8 witness: the theorem applied to the line `unknown_command -h`
against the empty registry with no client held. -/
theorem C8_detail_help_bypass_witness :
    wrapper.handleCommand Registry.empty none "unknown_command -h" =
      ⟨printCommandDetail Registry.empty
         (parseInvocation (jsTrim "unknown_command -h")).1, [], LoopAction.reprompt⟩ ∧
    printCommandDetail Registry.empty "unknown_command" =
      ("Unknown command: " ++ "unknown_command") ::
        printAvailableCommands Registry.empty :=
  ⟨(C8_detail_help_bypass Registry.empty none "unknown_command -h" "unknown_command"
      (by decide) (by decide) (by decide) (by decide) (by decide) (by decide)
      (by decide) (by decide) (by decide)).1,
   (C8_detail_help_bypass Registry.empty none "unknown_command -h" "unknown_command"
      (by decide) (by decide) (by decide) (by decide) (by decide) (by decide)
      (by decide) (by decide) (by decide)).2.1⟩

